import Mathlib

/-!
Verification of the sqlite message-storage engine
(`src/plugins/messageStorage/sqlite.js` of progval/thelounge).

The JavaScript source is shallowly embedded: the database is a list of rows,
SQL queries become filter/sort/take operations on that list, and the
JavaScript value `undefined` is modelled by `Option.none` wherever a field
may be absent.  SQLite's `LIKE ... ESCAPE '@'` operator is embedded as a
recursive matcher over character lists, including its default
ASCII-case-insensitive comparison.
-/

namespace TheLounge

/-- ASCII lower-casing of a single character.  SQLite's built-in `LIKE`
folds exactly the ASCII range `A`-`Z`; the JavaScript `toLowerCase()` calls
in the source are likewise modelled on this ASCII fragment. -/
def lowerChar (c : Char) : Char :=
  if 65 ≤ c.toNat ∧ c.toNat ≤ 90 then Char.ofNat (c.toNat + 32) else c

/-- Character comparison used by SQLite's default `LIKE`: equal up to ASCII
case. -/
def chEq (a b : Char) : Bool := lowerChar a == lowerChar b

/-- ASCII lower-casing of a string, modelling `String.prototype.toLowerCase`
on the ASCII fragment. -/
def lowerString (s : String) : String := String.mk (s.data.map lowerChar)

/-- `query.searchTerm.replace(/([%_@])/g, "@$1")` (sqlite.js line 209):
every `%`, `_` and `@` in the search term is prefixed with the escape
character `@`. -/
def escapeTerm : List Char → List Char
  | [] => []
  | c :: t =>
    if c = '%' ∨ c = '_' ∨ c = '@' then '@' :: c :: escapeTerm t
    else c :: escapeTerm t

/-- All suffixes of a character list, longest first (including the list
itself and the empty suffix). -/
def suffixes : List Char → List (List Char)
  | [] => [[]]
  | c :: s => (c :: s) :: suffixes s

/-- SQLite `LIKE` pattern matching with `ESCAPE '@'` semantics:
`%` matches any sequence (the rest of the pattern may resume at any suffix
of the text), `_` any single character, `@c` the character `c` itself, and
plain characters compare ASCII-case-insensitively
(`likeMatch pattern text`). -/
def likeMatch : List Char → List Char → Bool
  | [], s => s.isEmpty
  | c :: p, s =>
    if c = '%' then
      (suffixes s).any (fun t => likeMatch p t)
    else if c = '_' then
      (match s with
       | [] => false
       | _ :: s2 => likeMatch p s2)
    else if c = '@' then
      (match p with
       | [] => false
       | e :: p2 =>
         match s with
         | [] => false
         | d :: s2 => chEq e d && likeMatch p2 s2)
    else
      (match s with
       | [] => false
       | d :: s2 => chEq c d && likeMatch p s2)

/-- The pattern `%${escapedSearchTerm}%` built at sqlite.js line 213. -/
def searchPattern (term : List Char) : List Char :=
  '%' :: (escapeTerm term ++ ['%'])

example : likeMatch (searchPattern ['A']) ['x', 'a', 'y'] = true := by decide
example : likeMatch (searchPattern ['%']) ['a', 'b'] = false := by decide
example : likeMatch (searchPattern ['%']) ['a', '%', 'b'] = true := by decide
example : likeMatch (searchPattern ['_']) ['a', 'b'] = false := by decide
example : likeMatch (searchPattern ['a', '_']) ['a', '_'] = true := by decide

/-- A row of the `messages` table together with its SQLite `rowid`
(`CREATE TABLE ... messages (network TEXT, channel TEXT, time INTEGER,
type TEXT, msg TEXT)`, sqlite.js line 26).  The serialized `msg` blob is
represented by the one field the engine ever extracts from it,
`json_extract(msg, "$.text")`; by the `index` path the blob never contains
`id`, `previews`, `type` or `time` (and in particular no `rowid`). -/
structure DbRow where
  rowid : Int
  network : String
  channel : String
  time : Int
  type : String
  text : List Char
  deriving DecidableEq, Repr

/-- The network domain object at the interface boundary: only `uuid` is read. -/
structure Network where
  uuid : String
  deriving DecidableEq

/-- The channel domain object at the interface boundary: only `name` is read. -/
structure Chan where
  name : String
  deriving DecidableEq

/-- The fields of an incoming message that `index` reads: `msg.time.getTime()`
(epoch milliseconds), `msg.type`, and the payload text that survives into the
serialized blob. -/
structure MsgIn where
  time : Int
  type : String
  text : List Char
  deriving DecidableEq

/-- `ORDER BY time DESC, rowid DESC` (sqlite.js line 238): `searchOrd a b`
holds when row `a` sorts no later than row `b` in this descending
lexicographic order.  `getMessages` only orders by `time DESC`; SQLite
leaves its tie order unspecified and the embedding fixes ties by `rowid`
(no theorem below depends on that tiebreak). -/
def searchOrd (a b : DbRow) : Prop :=
  b.time < a.time ∨ (b.time = a.time ∧ b.rowid ≤ a.rowid)

instance : DecidableRel searchOrd := fun a b =>
  inferInstanceAs (Decidable (b.time < a.time ∨ (b.time = a.time ∧ b.rowid ≤ a.rowid)))

instance : IsTotal DbRow searchOrd := ⟨by
  intro a b
  unfold searchOrd
  omega⟩

instance : IsTrans DbRow searchOrd := ⟨by
  intro a b c
  unfold searchOrd
  omega⟩

/-- The search query object
`{ searchTerm, networkUuid?, channelName?, lastTime?, lastId? }`.
`none` models a field that is absent / `undefined` in JavaScript. -/
structure SearchQuery where
  searchTerm : List Char
  networkUuid : Option String
  channelName : Option String
  lastTime : Option Int
  lastId : Option Int
  deriving DecidableEq

/-- JavaScript truthiness of an optional string: `undefined` and `""` are
falsy. -/
def truthyStr : Option String → Bool
  | none => false
  | some s => !(s == "")

/-- JavaScript truthiness of an optional integer: `undefined` and `0` are
falsy. -/
def truthyInt : Option Int → Bool
  | none => false
  | some n => !(n == 0)

/-- SQL `rowid < ?` where the bound parameter may be the JavaScript value
`undefined`: node-sqlite3 binds `undefined` as SQL `NULL`, and
`rowid < NULL` is never true in a `WHERE` clause. -/
def intLtNull (a : Int) : Option Int → Bool
  | none => false
  | some b => a < b

/-- The `WHERE` clause assembled by `search` (sqlite.js lines 211-235):
`type = "message" AND json_extract(msg, "$.text") LIKE ? ESCAPE '@'`,
plus the network/channel/cursor conjuncts that are appended only when the
corresponding query field is truthy. -/
def searchWhere (q : SearchQuery) (r : DbRow) : Bool :=
  r.type == "message" &&
  likeMatch (searchPattern q.searchTerm) r.text &&
  (!truthyStr q.networkUuid || r.network == q.networkUuid.getD "") &&
  (!truthyStr q.channelName || r.channel == lowerString (q.channelName.getD "")) &&
  (!truthyInt q.lastTime ||
    ((r.time == q.lastTime.getD 0 && intLtNull r.rowid q.lastId) ||
      r.time < q.lastTime.getD 0))

/-- `const maxResults = 100` (sqlite.js line 225). -/
def maxResults : Nat := 100

/-- The rows produced by the `search` query: matching rows in
`(time DESC, rowid DESC)` order, capped at `maxResults`. -/
def searchSelectedRows (db : List DbRow) (q : SearchQuery) : List DbRow :=
  (List.insertionSort searchOrd (db.filter (searchWhere q))).take maxResults

/-- The message object built by `parseSearchRowsToMessages`
(sqlite.js lines 270-284).  `id` and `rowid` are `Option Int` because both
end up as the JavaScript value `undefined`:
`msg.id = row.id` reads a property the `SELECT rowid, msg, type, time,
network, channel` row does not have, and no `rowid` property is ever
assigned to the message at all. -/
structure SearchMsg where
  text : List Char
  time : Int
  type : String
  networkUuid : String
  channelName : String
  id : Option Int
  rowid : Option Int
  deriving DecidableEq

/-- `parseSearchRowsToMessages(rows)` (sqlite.js lines 270-284): each row is
deserialized, `time`/`type`/`networkUuid`/`channelName` come from the
columns, `id` is set from the nonexistent column `id` (hence `undefined`),
and no `rowid` field is set. -/
def parseSearchRowsToMessages (rows : List DbRow) : List SearchMsg :=
  rows.map (fun r =>
    { text := r.text
      time := r.time
      type := r.type
      networkUuid := r.network
      channelName := r.channel
      id := none
      rowid := none })

/-- The object resolved by `search` (sqlite.js lines 249-256).  `lastId` is
`Option Int` because `results[0].rowid` is `undefined` (modelled `none`)
whenever the page is non-empty. -/
structure SearchResponse where
  searchTerm : List Char
  target : Option String
  networkUuid : Option String
  lastTime : Int
  lastId : Option Int
  results : List SearchMsg
  deriving DecidableEq

/-- The value `search` resolves with: a plain empty array when the store is
disabled (sqlite.js line 205), a response object otherwise. -/
inductive SearchReturn
  | emptyArray
  | response (r : SearchResponse)
  deriving DecidableEq

/-- `search(query)` (sqlite.js lines 203-261). -/
def search (isEnabled : Bool) (db : List DbRow) (q : SearchQuery) : SearchReturn :=
  if ¬isEnabled then .emptyArray
  else
    let results := (parseSearchRowsToMessages (searchSelectedRows db q)).reverse
    .response
      { searchTerm := q.searchTerm
        target := q.channelName
        networkUuid := q.networkUuid
        lastTime := match results.head? with
          | some m => m.time
          | none => -1
        lastId := match results.head? with
          | some m => m.rowid
          | none => some (-1)
        results := results }

/-- The iteration protocol of the pagination claim: call `search`, and while
the returned cursor is not the sentinel `(-1, -1)`, feed `lastTime`/`lastId`
back into the next query, concatenating the delivered pages.  `fuel` bounds
the number of calls. -/
def searchAll (fuel : Nat) (db : List DbRow) (q : SearchQuery) : List SearchMsg :=
  match fuel with
  | 0 => []
  | fuel + 1 =>
    match search true db q with
    | .emptyArray => []
    | .response r =>
      if r.lastTime == -1 && r.lastId == some (-1) then r.results
      else r.results ++
        searchAll fuel db { q with lastTime := some r.lastTime, lastId := r.lastId }

/-- The row inserted by `index(network, channel, msg)` (sqlite.js lines
135-144): `network.uuid`, `channel.name.toLowerCase()`,
`msg.time.getTime()`, `msg.type`, and the serialized blob (which keeps the
payload text but drops `id`, `previews`, `type`, `time`).  `rowid` is the
rowid SQLite assigns to the new row. -/
def mkIndexRow (rowid : Int) (net : Network) (chan : Chan) (m : MsgIn) : DbRow :=
  { rowid := rowid
    network := net.uuid
    channel := lowerString chan.name
    time := m.time
    type := m.type
    text := m.text }

/-- `index(network, channel, msg)` (sqlite.js lines 119-145): a no-op when
disabled, otherwise appends one row. -/
def index (isEnabled : Bool) (db : List DbRow) (rowid : Int) (net : Network)
    (chan : Chan) (m : MsgIn) : List DbRow :=
  if ¬isEnabled then db else db ++ [mkIndexRow rowid net chan m]

/-- The `WHERE network = ? AND channel = ?` clause shared by `deleteChannel`
and `getMessages` (sqlite.js lines 154, 178), with the channel parameter
already lowercased by the caller. -/
def histWhere (uuid chanLower : String) (r : DbRow) : Bool :=
  r.network == uuid && r.channel == chanLower

/-- `deleteChannel(network, channel)` (sqlite.js lines 147-159): a no-op
when disabled, otherwise `DELETE FROM messages WHERE network = ? AND
channel = ?` with `network.uuid` and `channel.name.toLowerCase()`. -/
def deleteChannel (isEnabled : Bool) (db : List DbRow) (net : Network)
    (chan : Chan) : List DbRow :=
  if ¬isEnabled then db
  else db.filter (fun r => !histWhere net.uuid (lowerString chan.name) r)

/-- `Helper.config.maxHistory < 0 ? 100000 : Helper.config.maxHistory`
(sqlite.js line 173). -/
def effectiveLimit (maxHistory : Int) : Int :=
  if maxHistory < 0 then 100000 else maxHistory

/-- The rows produced by the `getMessages` query (sqlite.js line 178):
matching rows in `time DESC` order (ties fixed by `rowid` in the embedding)
capped at the effective limit. -/
def historyRows (db : List DbRow) (net : Network) (chan : Chan)
    (maxHistory : Int) : List DbRow :=
  (List.insertionSort searchOrd
      (db.filter (histWhere net.uuid (lowerString chan.name)))).take
    (effectiveLimit maxHistory).toNat

/-- The message object delivered by `getMessages` (sqlite.js lines 186-195):
the deserialized payload with `time` and `type` taken from the columns and a
fresh per-client id. -/
structure HistMsg where
  text : List Char
  time : Int
  type : String
  id : Int
  deriving DecidableEq

/-- `rows.reverse().map(...)` with `newMsg.id = this.client.idMsg++`
(sqlite.js lines 186-195): each delivered message receives the next value of
the client's monotonically increasing id counter. -/
def rowsToHistMsgs (idStart : Int) : List DbRow → List HistMsg
  | [] => []
  | r :: rs =>
    { text := r.text, time := r.time, type := r.type, id := idStart } ::
      rowsToHistMsgs (idStart + 1) rs

/-- `getMessages(network, channel)` (sqlite.js lines 167-201): empty when
disabled or `maxHistory === 0`; otherwise the most recent rows up to the
effective limit, reversed to chronological order. -/
def getMessages (isEnabled : Bool) (maxHistory : Int) (db : List DbRow)
    (net : Network) (chan : Chan) (idStart : Int) : List HistMsg :=
  if ¬isEnabled ∨ maxHistory = 0 then []
  else rowsToHistMsgs idStart (historyRows db net chan maxHistory).reverse

/-- Observable events of `close(callback)`, in the order they happen. -/
inductive CloseEvent
  | setDisabled
  | dbCloseStart
  | callbackCalled (err : Option String)
  deriving DecidableEq

/-- `close(callback)` (sqlite.js lines 101-117): returns the new value of
`isEnabled` and the trace of events.  When the store is not enabled the
method returns at once — in particular the callback is never invoked.  When
enabled, the flag is cleared first, then the handle is closed, and the
callback (if one was provided) receives the close error. -/
def close (isEnabled : Bool) (hasCallback : Bool) (closeErr : Option String) :
    Bool × List CloseEvent :=
  if ¬isEnabled then (isEnabled, [])
  else
    (false,
      [CloseEvent.setDisabled, CloseEvent.dbCloseStart] ++
        (if hasCallback then [CloseEvent.callbackCalled closeErr] else []))

/-- `const currentSchemaVersion = 1520239200` (sqlite.js line 21). -/
def currentSchemaVersion : Int := 1520239200

/-- What `enable`'s schema-version callback decides to do (sqlite.js lines
55-97). -/
inductive SchemaAction
  | insertCurrent
  | noAction
  | logNewerError
  | runMigration
  deriving DecidableEq

/-- The four-way case split of the schema-version callback: no row inserts
the current version; an equal stored version does nothing; a greater stored
version only logs an error; a lower stored version updates the stored value
to the current version. -/
def resolveSchemaVersion (stored : Option Int) : SchemaAction :=
  match stored with
  | none => .insertCurrent
  | some v =>
    if v = currentSchemaVersion then .noAction
    else if v > currentSchemaVersion then .logNewerError
    else .runMigration

/-- The stored `schema_version` option after `enable` has resolved it. -/
def applySchemaVersion (stored : Option Int) : Option Int :=
  match resolveSchemaVersion stored with
  | .insertCurrent => some currentSchemaVersion
  | .noAction => stored
  | .logNewerError => stored
  | .runMigration => some currentSchemaVersion

/-- The outcome of `enable()` (sqlite.js lines 37-99) as far as the claims
observe it: whether the store ends up enabled, the stored schema version,
and whether the newer-schema error was logged.  `mkdirOk` is whether the
logs directory could be created; on failure `enable` returns before setting
`isEnabled` (lines 42-47). -/
structure EnableOutcome where
  isEnabled : Bool
  storedVersion : Option Int
  loggedNewerError : Bool
  deriving DecidableEq

/-- `enable()` (sqlite.js lines 37-99). -/
def runEnable (mkdirOk : Bool) (stored : Option Int) : EnableOutcome :=
  if mkdirOk then
    { isEnabled := true
      storedVersion := applySchemaVersion stored
      loggedNewerError := resolveSchemaVersion stored == SchemaAction.logNewerError }
  else
    { isEnabled := false, storedVersion := stored, loggedNewerError := false }

/-- The spec's worked example database: three messages at times 100, 300,
200 in channel `#a`, with the term `z` present only in the one at time 200. -/
def exampleDb3 : List DbRow :=
  [{ rowid := 1, network := "n", channel := "#a", time := 100,
     type := "message", text := ['a'] },
   { rowid := 2, network := "n", channel := "#a", time := 300,
     type := "message", text := ['b'] },
   { rowid := 3, network := "n", channel := "#a", time := 200,
     type := "message", text := ['z'] }]

/-- A first-page query for the term `z` with no scope and no cursor. -/
def exampleQueryZ : SearchQuery :=
  { searchTerm := ['z'], networkUuid := none, channelName := none,
    lastTime := none, lastId := none }

/-- 101 matching rows that all share the timestamp 500 (rowids 101 down
to 1), so that a page boundary falls inside a group of identical times. -/
def exampleDb101 : List DbRow :=
  (List.range 101).map (fun i =>
    { rowid := 101 - (i : Int), network := "n", channel := "#a", time := 500,
      type := "message", text := ['a'] })

/-- A first-page query for the term `a` with no scope and no cursor. -/
def exampleQueryA : SearchQuery :=
  { searchTerm := ['a'], networkUuid := none, channelName := none,
    lastTime := none, lastId := none }

/-! ### Lemmas about the `LIKE` matcher -/

theorem mem_suffixes (s t : List Char) : t ∈ suffixes s ↔ ∃ u, s = u ++ t := by
  induction s with
  | nil =>
    simp only [suffixes, List.mem_singleton]
    constructor
    · rintro rfl
      exact ⟨[], rfl⟩
    · rintro ⟨u, hu⟩
      rcases List.append_eq_nil.mp hu.symm with ⟨-, h⟩
      exact h
  | cons c s ih =>
    simp only [suffixes, List.mem_cons, ih]
    constructor
    · rintro (rfl | ⟨u, rfl⟩)
      · exact ⟨[], rfl⟩
      · exact ⟨c :: u, rfl⟩
    · rintro ⟨u, hu⟩
      cases u with
      | nil =>
        left
        simpa using hu.symm
      | cons x u =>
        right
        injection hu with h1 h2
        exact ⟨u, h2⟩

theorem likeMatch_pct (p s : List Char) :
    likeMatch ('%' :: p) s = (suffixes s).any (fun t => likeMatch p t) := by
  rw [likeMatch.eq_def]; rfl

theorem likeMatch_esc_nil (e : Char) (p : List Char) :
    likeMatch ('@' :: e :: p) [] = false := by
  rw [likeMatch.eq_def]; rfl

theorem likeMatch_esc_cons (e : Char) (p : List Char) (d : Char) (s : List Char) :
    likeMatch ('@' :: e :: p) (d :: s) = (chEq e d && likeMatch p s) := by
  rw [likeMatch.eq_def]; rfl

theorem likeMatch_lit_nil (c : Char) (p : List Char)
    (h1 : c ≠ '%') (h2 : c ≠ '_') (h3 : c ≠ '@') :
    likeMatch (c :: p) [] = false := by
  rw [likeMatch.eq_def]
  simp only [if_neg h1, if_neg h2, if_neg h3]

theorem likeMatch_lit_cons (c : Char) (p : List Char) (d : Char) (s : List Char)
    (h1 : c ≠ '%') (h2 : c ≠ '_') (h3 : c ≠ '@') :
    likeMatch (c :: p) (d :: s) = (chEq c d && likeMatch p s) := by
  rw [likeMatch.eq_def]
  simp only [if_neg h1, if_neg h2, if_neg h3]

theorem likeMatch_pct_iff (p s : List Char) :
    likeMatch ('%' :: p) s = true ↔ ∃ u v, s = u ++ v ∧ likeMatch p v = true := by
  rw [likeMatch_pct, List.any_eq_true]
  constructor
  · rintro ⟨t, ht, hp⟩
    obtain ⟨u, rfl⟩ := (mem_suffixes s t).mp ht
    exact ⟨u, t, rfl, hp⟩
  · rintro ⟨u, v, rfl, hv⟩
    exact ⟨v, (mem_suffixes _ v).mpr ⟨u, rfl⟩, hv⟩

/-- One character of the escaped term consumes exactly one character of the
text, compared up to ASCII case, whether or not it was escaped. -/
theorem likeMatch_escStep (c : Char) (rest s : List Char) :
    likeMatch (escapeTerm [c] ++ rest) s =
      (match s with
       | [] => false
       | d :: s2 => chEq c d && likeMatch rest s2) := by
  by_cases hc : c = '%' ∨ c = '_' ∨ c = '@'
  · have : escapeTerm [c] = ['@', c] := by
      simp only [escapeTerm, if_pos hc]
    rw [this]
    cases s with
    | nil => exact likeMatch_esc_nil c rest
    | cons d s2 => exact likeMatch_esc_cons c rest d s2
  · push_neg at hc
    have : escapeTerm [c] = [c] := by
      simp only [escapeTerm, if_neg (by tauto : ¬(c = '%' ∨ c = '_' ∨ c = '@'))]
    rw [this]
    cases s with
    | nil => exact likeMatch_lit_nil c rest hc.1 hc.2.1 hc.2.2
    | cons d s2 => exact likeMatch_lit_cons c rest d s2 hc.1 hc.2.1 hc.2.2

theorem escapeTerm_cons (c : Char) (t : List Char) :
    escapeTerm (c :: t) = escapeTerm [c] ++ escapeTerm t := by
  by_cases hc : c = '%' ∨ c = '_' ∨ c = '@' <;>
    simp [escapeTerm, hc]

/-- Matching the escaped term followed by `%` succeeds exactly when some
prefix of the text equals the term up to ASCII case. -/
theorem likeMatch_escaped (t : List Char) :
    ∀ s, likeMatch (escapeTerm t ++ ['%']) s = true ↔
      ∃ u v, s = u ++ v ∧ u.map lowerChar = t.map lowerChar := by
  induction t with
  | nil =>
    intro s
    constructor
    · intro _
      exact ⟨[], s, rfl, rfl⟩
    · intro _
      show likeMatch ('%' :: []) s = true
      exact (likeMatch_pct_iff [] s).mpr ⟨s, [], by simp, rfl⟩
  | cons c t ih =>
    intro s
    rw [escapeTerm_cons, List.append_assoc, likeMatch_escStep]
    cases s with
    | nil =>
      simp
    | cons d s2 =>
      rw [Bool.and_eq_true]
      constructor
      · rintro ⟨hcd, hrest⟩
        obtain ⟨u2, v, rfl, hu⟩ := (ih s2).mp hrest
        refine ⟨d :: u2, v, rfl, ?_⟩
        have hdc : lowerChar d = lowerChar c := (beq_iff_eq.mp hcd).symm
        simp [hdc, hu]
      · rintro ⟨u, v, huv, hmap⟩
        cases u with
        | nil => simp at hmap
        | cons x u2 =>
          injection huv with hx hs
          subst hx
          simp only [List.map_cons, List.cons.injEq] at hmap
          refine ⟨?_, (ih s2).mpr ⟨u2, v, hs, hmap.2⟩⟩
          exact beq_iff_eq.mpr hmap.1.symm

/-- The full pattern `%term%` (with the term escaped) matches exactly the
texts containing the term as a substring up to ASCII case. -/
theorem searchPattern_iff (t s : List Char) :
    likeMatch (searchPattern t) s = true ↔
      ∃ u v w, s = u ++ v ++ w ∧ v.map lowerChar = t.map lowerChar := by
  unfold searchPattern
  rw [likeMatch_pct_iff]
  constructor
  · rintro ⟨u, v, rfl, hv⟩
    obtain ⟨v1, v2, rfl, hmap⟩ := (likeMatch_escaped t v).mp hv
    exact ⟨u, v1, v2, by simp, hmap⟩
  · rintro ⟨u, v, w, rfl, hmap⟩
    exact ⟨u, v ++ w, by simp, (likeMatch_escaped t (v ++ w)).mpr ⟨v, w, rfl, hmap⟩⟩

/-! ### Claim theorems -/

/-- Claim C3, counterexample to the claim as stated: the term `A` matches
the stored text `a` (SQLite's default `LIKE` compares ASCII letters
case-insensitively), yet `a` does not contain `A` literally as a
substring. -/
theorem escaping_literal_counterexample :
    likeMatch (searchPattern ['A']) ['a'] = true ∧
      ¬∃ u w : List Char, ['a'] = u ++ ['A'] ++ w := by
  constructor
  · decide
  · rintro ⟨u, w, h⟩
    cases u with
    | nil =>
      injection h with h1 h2
      exact absurd h1 (by decide)
    | cons x u =>
      injection h with h1 h2
      simp at h2

/-- Claim C3 (amended): every occurrence of `%`, `_` and `@` in the term is
escaped with `@`, and the resulting pattern `%term%` matches exactly the
rows whose extracted text contains the term as a substring under SQLite's
default ASCII-case-insensitive comparison; `%` and `_` in the term never
act as wildcards. -/
theorem escaping_matches_exactly_substrings (t s : List Char) :
    likeMatch (searchPattern t) s = true ↔
      ∃ u v w, s = u ++ v ++ w ∧ v.map lowerChar = t.map lowerChar :=
  searchPattern_iff t s

/-- Witness for C3's theorem at a concrete input. -/
theorem escaping_matches_exactly_substrings_witness :
    ∃ u v w, (['x', 'a', 'y'] : List Char) = u ++ v ++ w ∧
      v.map lowerChar = (['A'] : List Char).map lowerChar :=
  (escaping_matches_exactly_substrings ['A'] ['x', 'a', 'y']).mp (by decide)

/-- Claim C4, counterexample to the claim as stated: closing a disabled
store does not invoke the callback at all (sqlite.js lines 102-104 return
before reaching it), so the callback is in particular not called with "no
error". -/
theorem close_disabled_counterexample :
    (close false true none).2 = [] ∧
      CloseEvent.callbackCalled none ∉ (close false true none).2 := by
  constructor
  · rfl
  · decide

/-- Claim C4 (amended): closing a disabled store returns immediately
without invoking the callback; closing an enabled store clears the enabled
flag before the underlying handle close begins, and passes the close error
to the callback when one was provided. -/
theorem close_spec (hasCallback : Bool) (err : Option String) :
    close false hasCallback err = (false, []) ∧
    (close true hasCallback err).1 = false ∧
    (∃ rest, (close true hasCallback err).2 =
      CloseEvent.setDisabled :: CloseEvent.dbCloseStart :: rest) ∧
    (hasCallback = true →
      CloseEvent.callbackCalled err ∈ (close true hasCallback err).2) := by
  refine ⟨rfl, rfl, ⟨_, rfl⟩, ?_⟩
  rintro rfl
  simp [close]

/-- Witness for C4's theorem at a concrete input. -/
theorem close_spec_witness :
    (close true true (some "boom")).1 = false ∧
      CloseEvent.callbackCalled (some "boom") ∈ (close true true (some "boom")).2 :=
  ⟨(close_spec true (some "boom")).2.1, (close_spec true (some "boom")).2.2.2 rfl⟩

/-- Claim C9: on a disabled store, `search` resolves to the bare empty
array (sqlite.js line 205), which is not a response object — no
`SearchResponse` value is ever returned, so none of its fields exist on the
resolved value. -/
theorem search_disabled_bare_array (db : List DbRow) (q : SearchQuery) :
    search false db q = SearchReturn.emptyArray ∧
    ∀ r : SearchResponse, search false db q ≠ SearchReturn.response r := by
  refine ⟨rfl, ?_⟩
  intro r h
  simp [search] at h

/-- Witness for C9's theorem at a concrete input. -/
theorem search_disabled_bare_array_witness :
    search false exampleDb3 exampleQueryZ = SearchReturn.emptyArray :=
  (search_disabled_bare_array exampleDb3 exampleQueryZ).1

/-- Claim C10: the scoping and pagination conjuncts are appended only when
the corresponding query field is truthy, so a falsy `lastTime` (0 or
absent) yields the first page and an empty-string `networkUuid` or
`channelName` yields an unscoped search — the selected rows are exactly
those of a query with the field omitted. -/
theorem search_falsy_fields_ignored (db : List DbRow) (q : SearchQuery) :
    searchSelectedRows db { q with networkUuid := some "" } =
      searchSelectedRows db { q with networkUuid := none } ∧
    searchSelectedRows db { q with channelName := some "" } =
      searchSelectedRows db { q with channelName := none } ∧
    searchSelectedRows db { q with lastTime := some 0 } =
      searchSelectedRows db { q with lastTime := none } := by
  refine ⟨?_, ?_, ?_⟩ <;> rfl

/-- Witness for C10's theorem at a concrete input. -/
theorem search_falsy_fields_ignored_witness :
    searchSelectedRows exampleDb3 { exampleQueryZ with lastTime := some 0 } =
      searchSelectedRows exampleDb3 { exampleQueryZ with lastTime := none } :=
  (search_falsy_fields_ignored exampleDb3 exampleQueryZ).2.2

/-- Claim C6: a message indexed under `name1` is stored with a lowercased
channel column, so a later `getMessages`/`deleteChannel`/`search` using a
name that differs only in letter case selects it (their shared `WHERE`
clause matches), `deleteChannel` actually removes it, and the network
column is compared exactly. -/
theorem channel_scoping_case_insensitive (db : List DbRow) (rowid : Int)
    (uuid name1 name2 : String) (m : MsgIn)
    (h : lowerString name2 = lowerString name1) :
    mkIndexRow rowid ⟨uuid⟩ ⟨name1⟩ m ∈ index true db rowid ⟨uuid⟩ ⟨name1⟩ m ∧
    histWhere uuid (lowerString name2) (mkIndexRow rowid ⟨uuid⟩ ⟨name1⟩ m) = true ∧
    mkIndexRow rowid ⟨uuid⟩ ⟨name1⟩ m ∉
      deleteChannel true (index true db rowid ⟨uuid⟩ ⟨name1⟩ m) ⟨uuid⟩ ⟨name2⟩ ∧
    (∀ uuid2, uuid2 ≠ uuid →
      histWhere uuid2 (lowerString name2) (mkIndexRow rowid ⟨uuid⟩ ⟨name1⟩ m) = false) := by
  refine ⟨?_, ?_, ?_, ?_⟩
  · simp [index]
  · simp [histWhere, mkIndexRow, h]
  · intro hmem
    rw [deleteChannel, if_neg (by simp)] at hmem
    have := (List.mem_filter.mp hmem).2
    simp [histWhere, mkIndexRow, h] at this
  · intro uuid2 hne
    have huu : (uuid == uuid2) = false := beq_eq_false_iff_ne.mpr (Ne.symm hne)
    simp [histWhere, mkIndexRow, huu]

/-- Witness for C6's theorem: a message indexed under `#Foo` is matched and
deleted via `#foo`. -/
theorem channel_scoping_case_insensitive_witness :
    histWhere "u" (lowerString "#foo")
      (mkIndexRow 1 ⟨"u"⟩ ⟨"#Foo"⟩ ⟨100, "message", ['h', 'i']⟩) = true ∧
    mkIndexRow 1 ⟨"u"⟩ ⟨"#Foo"⟩ ⟨100, "message", ['h', 'i']⟩ ∉
      deleteChannel true
        (index true [] 1 ⟨"u"⟩ ⟨"#Foo"⟩ ⟨100, "message", ['h', 'i']⟩)
        ⟨"u"⟩ ⟨"#foo"⟩ := by
  have hth := channel_scoping_case_insensitive [] 1 "u" "#Foo" "#foo"
    ⟨100, "message", ['h', 'i']⟩ (by decide)
  exact ⟨hth.2.1, hth.2.2.1⟩

/-- Claim C7: the schema-version resolution of `enable` is a four-way case
split — no stored row inserts the current version, an equal stored version
does nothing, a greater stored version only logs an error and leaves the
stored version unchanged with the store still enabled, and a lower stored
version updates the stored version to the current one. -/
theorem schema_version_resolution (v : Int) :
    applySchemaVersion none = some currentSchemaVersion ∧
    applySchemaVersion (some currentSchemaVersion) = some currentSchemaVersion ∧
    (currentSchemaVersion < v →
      applySchemaVersion (some v) = some v ∧
      (runEnable true (some v)).loggedNewerError = true ∧
      (runEnable true (some v)).isEnabled = true) ∧
    (v < currentSchemaVersion →
      applySchemaVersion (some v) = some currentSchemaVersion ∧
      (runEnable true (some v)).loggedNewerError = false ∧
      (runEnable true (some v)).isEnabled = true) := by
  refine ⟨rfl, ?_, ?_, ?_⟩
  · simp [applySchemaVersion, resolveSchemaVersion]
  · intro hgt
    have h1 : v ≠ currentSchemaVersion := by omega
    have h2 : v > currentSchemaVersion := hgt
    simp [applySchemaVersion, resolveSchemaVersion, runEnable, h1, h2]
  · intro hlt
    have h1 : v ≠ currentSchemaVersion := by omega
    have h2 : ¬v > currentSchemaVersion := by omega
    simp [applySchemaVersion, resolveSchemaVersion, runEnable, h1, h2]

/-- Witness for C7's theorem at concrete stored versions. -/
theorem schema_version_resolution_witness :
    applySchemaVersion none = some currentSchemaVersion ∧
    (runEnable true (some (currentSchemaVersion + 1))).loggedNewerError = true ∧
    applySchemaVersion (some (currentSchemaVersion - 1)) = some currentSchemaVersion := by
  refine ⟨(schema_version_resolution 0).1, ?_, ?_⟩
  · exact ((schema_version_resolution (currentSchemaVersion + 1)).2.2.1 (by omega)).2.1
  · exact ((schema_version_resolution (currentSchemaVersion - 1)).2.2.2 (by omega)).1

/-- Multiplicity of an element after filtering. -/
theorem count_filter_eq (p : DbRow → Bool) (l : List DbRow) (r : DbRow) :
    (l.filter p).count r = if p r then l.count r else 0 := by
  by_cases h : p r
  · rw [if_pos h, List.count_filter h]
  · rw [if_neg h]
    rw [List.count_eq_zero]
    intro hmem
    exact h (List.mem_filter.mp hmem).2

/-- Claim C8: on an enabled store, `deleteChannel` removes exactly the rows
whose network column equals the given network's uuid and whose channel
column equals the lowercased channel name; every other row keeps its
multiplicity, and the surviving rows form a sublist of the original
database (order and duplicates untouched). -/
theorem deleteChannel_exact (db : List DbRow) (net : Network) (chan : Chan)
    (r : DbRow) :
    (deleteChannel true db net chan).count r =
      (if histWhere net.uuid (lowerString chan.name) r then 0 else db.count r) ∧
    (deleteChannel true db net chan).Sublist db := by
  have hdef : deleteChannel true db net chan =
      db.filter (fun x => !histWhere net.uuid (lowerString chan.name) x) := by
    rw [deleteChannel, if_neg (by simp)]
  constructor
  · rw [hdef, count_filter_eq]
    by_cases h : histWhere net.uuid (lowerString chan.name) r <;> simp [h]
  · rw [hdef]
    exact List.filter_sublist _

/-- Witness for C8's theorem: deleting `#a` on network `n` removes the row
at time 100 from the example database. -/
theorem deleteChannel_exact_witness :
    (deleteChannel true exampleDb3 ⟨"n"⟩ ⟨"#a"⟩).count
      { rowid := 1, network := "n", channel := "#a", time := 100,
        type := "message", text := ['a'] } = 0 := by
  rw [(deleteChannel_exact exampleDb3 ⟨"n"⟩ ⟨"#a"⟩
    { rowid := 1, network := "n", channel := "#a", time := 100,
      type := "message", text := ['a'] }).1]
  rw [if_pos (by decide)]

theorem length_rowsToHistMsgs (idStart : Int) (l : List DbRow) :
    (rowsToHistMsgs idStart l).length = l.length := by
  induction l generalizing idStart with
  | nil => rfl
  | cons r rs ih => simp [rowsToHistMsgs, ih]

theorem map_time_rowsToHistMsgs (idStart : Int) (l : List DbRow) :
    (rowsToHistMsgs idStart l).map HistMsg.time = l.map DbRow.time := by
  induction l generalizing idStart with
  | nil => rfl
  | cons r rs ih => simp [rowsToHistMsgs, ih]

/-- Claim C5: on an enabled store, `getMessages` returns an empty sequence
when `maxHistory` is 0, at most 100000 rows when it is negative, and at
most `maxHistory` rows otherwise; the delivered sequence is in ascending
time order, and any matching row left out is no more recent than every row
chosen. -/
theorem getMessages_spec (maxHistory idStart : Int) (db : List DbRow)
    (net : Network) (chan : Chan) :
    (maxHistory = 0 → getMessages true maxHistory db net chan idStart = []) ∧
    (maxHistory < 0 →
      (getMessages true maxHistory db net chan idStart).length ≤ 100000) ∧
    (0 < maxHistory →
      (getMessages true maxHistory db net chan idStart).length ≤ maxHistory.toNat) ∧
    List.Sorted (· ≤ ·)
      ((getMessages true maxHistory db net chan idStart).map HistMsg.time) ∧
    (∀ b ∈ db.filter (histWhere net.uuid (lowerString chan.name)),
      b ∉ historyRows db net chan maxHistory →
      ∀ a ∈ historyRows db net chan maxHistory, b.time ≤ a.time) := by
  set S := List.insertionSort searchOrd
    (db.filter (histWhere net.uuid (lowerString chan.name))) with hS
  have hsorted : List.Pairwise searchOrd S := List.sorted_insertionSort searchOrd _
  have hlen : ∀ h : ¬(¬true ∨ maxHistory = 0),
      (getMessages true maxHistory db net chan idStart).length =
        (historyRows db net chan maxHistory).length := by
    intro h
    rw [getMessages, if_neg h, length_rowsToHistMsgs, List.length_reverse]
  refine ⟨?_, ?_, ?_, ?_, ?_⟩
  · intro h0
    rw [getMessages, if_pos (Or.inr h0)]
  · intro hneg
    rw [hlen (by simp; omega), historyRows, effectiveLimit, if_pos hneg]
    calc (S.take (100000 : Int).toNat).length ≤ (100000 : Int).toNat :=
          List.length_take_le _ _
      _ = 100000 := rfl
  · intro hpos
    rw [hlen (by simp; omega), historyRows, effectiveLimit, if_neg (by omega)]
    exact List.length_take_le _ _
  · by_cases h : ¬true ∨ maxHistory = 0
    · rw [getMessages, if_pos h]
      simp
    · rw [getMessages, if_neg h, map_time_rowsToHistMsgs]
      rw [List.Sorted, List.pairwise_map, List.pairwise_reverse]
      have htake : List.Pairwise searchOrd
          (S.take (effectiveLimit maxHistory).toNat) :=
        hsorted.sublist (List.take_sublist _ _)
      exact htake.imp (by intro a b hab; unfold searchOrd at hab; omega)
  · intro b hb hnot a ha
    have hbS : b ∈ S := (List.perm_insertionSort searchOrd _).symm.subset hb
    have hsplit : S.take (effectiveLimit maxHistory).toNat ++
        S.drop (effectiveLimit maxHistory).toNat = S := List.take_append_drop _ _
    have hdrop : b ∈ S.drop (effectiveLimit maxHistory).toNat := by
      rcases List.mem_append.mp (hsplit ▸ hbS) with h | h
      · exact absurd h hnot
      · exact h
    have hcross := (List.pairwise_append.mp (hsplit ▸ hsorted)).2.2
    have := hcross a ha b hdrop
    unfold searchOrd at this
    omega

/-- Witness for C5's theorem at concrete configurations. -/
theorem getMessages_spec_witness :
    getMessages true 0 exampleDb3 ⟨"n"⟩ ⟨"#a"⟩ 0 = [] ∧
    (getMessages true (-1) exampleDb3 ⟨"n"⟩ ⟨"#a"⟩ 0).length ≤ 100000 ∧
    (getMessages true 1 exampleDb3 ⟨"n"⟩ ⟨"#a"⟩ 0).length ≤ (1 : Int).toNat ∧
    ((exampleDb3.get ⟨2, by decide⟩).time ≤ (exampleDb3.get ⟨1, by decide⟩).time) := by
  refine ⟨(getMessages_spec 0 0 exampleDb3 ⟨"n"⟩ ⟨"#a"⟩).1 rfl,
    (getMessages_spec (-1) 0 exampleDb3 ⟨"n"⟩ ⟨"#a"⟩).2.1 (by decide),
    (getMessages_spec 1 0 exampleDb3 ⟨"n"⟩ ⟨"#a"⟩).2.2.1 (by decide), ?_⟩
  exact (getMessages_spec 1 0 exampleDb3 ⟨"n"⟩ ⟨"#a"⟩).2.2.2.2
    (exampleDb3.get ⟨2, by decide⟩) (by decide) (by decide)
    (exampleDb3.get ⟨1, by decide⟩) (by decide)

set_option maxRecDepth 100000

/-- Claim C2 (evaluation at the failing input): on the spec's own worked
example — term `z`, matched only by the row with rowid 3 at time 200 — the
resolved cursor has the correct `lastTime` 200 but `lastId` is `undefined`
(`none`), not the row's rowid 3: the `SELECT` exposes the column `rowid`,
while `parseSearchRowsToMessages` copies `row.id` (a property the row does
not have) and the response reads `results[0].rowid` (a property the built
message object never receives).  The follow-up query with that cursor then
returns the empty page with the sentinel `(-1, -1)`. -/
theorem search_cursor_lastId_undefined :
    search true exampleDb3 exampleQueryZ = SearchReturn.response
      { searchTerm := ['z'], target := none, networkUuid := none,
        lastTime := 200, lastId := none,
        results := [{ text := ['z'], time := 200, type := "message",
                      networkUuid := "n", channelName := "#a",
                      id := none, rowid := none }] } ∧
    search true exampleDb3
        { exampleQueryZ with lastTime := some 200, lastId := none } =
      SearchReturn.response
        { searchTerm := ['z'], target := none, networkUuid := none,
          lastTime := -1, lastId := some (-1), results := [] } := by
  constructor
  · decide
  · decide

/-- Claim C1 (evaluation at the failing input): 101 rows share the
timestamp 500 and all match the term `a`; iterating `search` with the
returned cursors until the sentinel visits only 100 of the 101 matching
rows.  Page 1 delivers 100 rows and its cursor is `(500, undefined)`
because the row identity is lost (see `search_cursor_lastId_undefined`),
so page 2's predicate degenerates to `time < 500` — binding the
`undefined` cursor id as SQL `NULL` makes `rowid < NULL` never true — and
the remaining row with rowid 1 is skipped. -/
theorem search_pagination_skips_tied_row :
    (exampleDb101.filter (searchWhere exampleQueryA)).length = 101 ∧
    (searchAll 3 exampleDb101 exampleQueryA).length = 100 := by
  constructor
  · decide
  · decide

end TheLounge
